import Mathlib

/-!
Shallow embedding of the RCC (RGB LED Color Cube) firmware control logic:
the LED frame protocol (`led.h`/`led.c`), the main-loop gesture decoding,
command-session adjustment loops, EEPROM persistence and the shutdown
path (`main.c`).  Machine bytes are modelled as `Nat` with `% 256` at the
points where the C code truncates (increments of `unsigned char` fields);
SPI byte emission is modelled as the list of bytes pushed through
`spi_transfer`, in order.
-/

namespace RCC

/-! Configuration constants, from `led.h` and `main.h`. -/

def LED_NUMBER_OF_LEDS : Nat := 2

def LED_FRAME_SIZE : Nat := 4

def LED_START_VALUE : Nat := 0x00

def LED_STOP_VALUE : Nat := 0xFF

def LED_ENABLE_FLAG : Nat := 0xE0

def LED_SLEEP_FLAG : Nat := 0xA0

def LED_MIN_INTENSITY : Nat := 0x01

def LED_MAX_INTENSITY : Nat := 0x0F

def SWITCH_COMMAND_EXECUTE_MS : Nat := 3000

def SWITCH_SYSTEM_OFF_TIME_MS : Nat := 3000

/-! Position bit flags, from `enum LED_Position_t` in `led.h`. -/

def LED_Position_None : Nat := 0x00

def LED_Position_Left : Nat := 0x01

def LED_Position_Right : Nat := 0x02

def LED_Position_Left_Alternating : Nat := 0x04

def LED_Position_Right_Alternating : Nat := 0x08

/-- Data record for one LED channel, from `struct LED_Data_t` in `led.h`:
intensity then red, green, blue, each an unsigned char. -/
structure LED_Data where
  intensity : Nat
  red : Nat
  green : Nat
  blue : Nat
deriving DecidableEq

/-! Frame encoder, from `led.c`.  Each function's value is the byte
sequence it pushes through `spi_transfer`, in order. -/

/-- Byte sequence of `led_frame` in `led.c`: mode, blue, green, red. -/
def led_frame (mode red green blue : Nat) : List Nat :=
  [mode, blue, green, red]

/-- Byte sequence of `led_xof` in `led.c`: the value repeated
`LED_FRAME_SIZE` times. -/
def led_xof (value : Nat) : List Nat :=
  List.replicate LED_FRAME_SIZE value

/-- Bytes of the `LED_SOF()` macro: the start marker. -/
def LED_SOF : List Nat := led_xof LED_START_VALUE

/-- Bytes of the `LED_EOF()` macro: the end marker. -/
def LED_EOF : List Nat := led_xof LED_STOP_VALUE

/-- Byte sequence of `led_data` in `led.c`: the enable flag OR-ed with the
masked intensity, then red, green, blue passed to `led_frame` (which puts
blue first on the wire). -/
def led_data (data : LED_Data) : List Nat :=
  led_frame (LED_ENABLE_FLAG ||| (0x3F &&& data.intensity)) data.red data.green data.blue

/-- Byte sequence of the inline `led_off` in `led.c`: an enable-flag frame
with all color bytes zero. -/
def led_off : List Nat :=
  led_frame LED_ENABLE_FLAG 0x00 0x00 0x00

/-- Byte output of a C `for (j = 0; j < n; j++)` loop whose body emits
`f j`; bytes are concatenated in loop order. -/
def emit_loop (f : Nat → List Nat) : Nat → List Nat
  | 0 => []
  | Nat.succ k => emit_loop f k ++ f k

/-- Byte emission of `led_init` in `led.c` (after SPI setup): start marker,
one enable/zero frame per configured LED, end marker. -/
def led_init_em (n : Nat) : List Nat :=
  LED_SOF ++ emit_loop (fun _ => led_frame LED_ENABLE_FLAG 0x00 0x00 0x00) n ++ LED_EOF

/-- Byte emission of `leds_off` in `led.c`: start marker, one off frame per
configured LED, end marker. -/
def leds_off_em (n : Nat) : List Nat :=
  LED_SOF ++ emit_loop (fun _ => led_off) n ++ LED_EOF

/-- Frame chosen for LED index `j` by the loop body of `led_color` in
`led.c`: the middle LED of an odd strip is forced off; the lower half uses
the left flags, the upper half the right flags; unselected LEDs get the
off frame. -/
def led_color_channel (n position j : Nat) (color : LED_Data) : List Nat :=
  if n % 2 ≠ 0 ∧ j = n / 2 then
    led_off
  else if j < n / 2 then
    if position &&& LED_Position_Left ≠ 0 ∨ position &&& LED_Position_Left_Alternating ≠ 0 then
      led_data color
    else
      led_off
  else
    if position &&& LED_Position_Right ≠ 0 ∨ position &&& LED_Position_Right_Alternating ≠ 0 then
      led_data color
    else
      led_off

/-- Byte emission of `led_color` in `led.c`: start marker, the per-LED
frames selected by the position mask, end marker. -/
def led_color_em (n position : Nat) (color : LED_Data) : List Nat :=
  LED_SOF ++ emit_loop (fun j => led_color_channel n position j color) n ++ LED_EOF

/-- States of `enum LED_Status_t` in `led.h`. -/
inductive LED_Status where
  | NoStatus
  | Ready
  | Warning
  | ErrorStatus
deriving DecidableEq

/-- Color table of `led_status_color` in `led.c`: Ready is green, Warning
is red+green (yellow), Error is red; the intensity is passed through. -/
def led_status_color (status : LED_Status) (intensity : Nat) : LED_Data :=
  match status with
  | LED_Status.Ready => ⟨intensity, 0x00, 0xFF, 0x00⟩
  | LED_Status.Warning => ⟨intensity, 0xFF, 0xFF, 0x00⟩
  | LED_Status.ErrorStatus => ⟨intensity, 0xFF, 0x00, 0x00⟩
  | LED_Status.NoStatus => ⟨intensity, 0x00, 0x00, 0x00⟩

/-! Main-loop model, from `main.c`.  The two global LED records `led1`
(left channel) and `led2` (right channel) form the mutable state. -/

/-- Pair of the global LED records `led1` and `led2` of `main.c`. -/
structure ChannelState where
  led1 : LED_Data
  led2 : LED_Data
deriving DecidableEq

/-- One iteration of the body of the adjustment `while` loop for the given
`execute_command` value, from the `switch` at `main.c:237`: command 1
increments `red`, 2 `green`, 3 `blue` (unsigned-char increments, so modulo
256); command 4 increments `intensity` and resets it to
`LED_MIN_INTENSITY` when it exceeds `LED_MAX_INTENSITY`; any other command
has no adjustment loop and mutates nothing. -/
def adjust_step (cmd : Nat) (d : LED_Data) : LED_Data :=
  match cmd with
  | 1 => { d with red := (d.red + 1) % 256 }
  | 2 => { d with green := (d.green + 1) % 256 }
  | 3 => { d with blue := (d.blue + 1) % 256 }
  | 4 =>
    let i := (d.intensity + 1) % 256
    { d with intensity := if i > LED_MAX_INTENSITY then LED_MIN_INTENSITY else i }
  | _ => d

/-- The record the pointer `led` targets in `main.c:209`: `led1` when the
selected position is `LED_Position_Left`, `led2` otherwise. -/
def session_target (pos : Nat) (s : ChannelState) : LED_Data :=
  if pos = LED_Position_Left then s.led1 else s.led2

/-- One adjustment iteration lifted to the two-channel state: only the
record selected by `pos` is written, exactly as the pointer write in
`main.c` touches only `led1` or `led2`. -/
def adjust_step_state (cmd pos : Nat) (s : ChannelState) : ChannelState :=
  if pos = LED_Position_Left then
    { s with led1 := adjust_step cmd s.led1 }
  else
    { s with led2 := adjust_step cmd s.led2 }

/-- The adjustment `while` loop run for `k` iterations (the button press
that ends the loop arrives after `k` body executions). -/
def adjust_loop (cmd pos : Nat) (k : Nat) (s : ChannelState) : ChannelState :=
  match k with
  | 0 => s
  | Nat.succ n => adjust_loop cmd pos n (adjust_step_state cmd pos s)

/-- Observable actions of the command-session epilogue in `main.c`:
the error blink of the `default` branch (`main.c:278`), the EEPROM block
write (`main.c:285` / `main.c:289`), and the final Ready confirmation
blink (`main.c:293`). -/
inductive SessionAction where
  | blink_error : SessionAction
  | eeprom_write : Nat → LED_Data → SessionAction
  | blink_confirm : SessionAction
deriving DecidableEq

/-- Whether `cmd` is one of the mapped commands of the `switch` in
`main.c:237`. -/
def command_mapped (cmd : Nat) : Bool :=
  cmd = 1 || cmd = 2 || cmd = 3 || cmd = 4

/-- The command-execution block of `main.c` from the `switch` at line 237
to the end of the `if(execute_command)` body, given the selected channel
`pos`, the number `k` of adjustment iterations before the terminating
press, and whether `ENABLE_EEPROM_WRITE` is defined.  Mapped commands run
their adjustment loop; an unmapped command runs the error blink of the
`default` branch and mutates nothing.  Control then falls through, for
every command value, to the EEPROM write of the selected record and the
Ready confirmation blink. -/
def execute_command_session (cmd k pos : Nat) (s : ChannelState)
    (eeprom_enabled : Bool) : ChannelState × List SessionAction :=
  let s2 := adjust_loop cmd pos k s
  let pre := if command_mapped cmd then [] else [SessionAction.blink_error]
  let wr := if eeprom_enabled then [SessionAction.eeprom_write pos (session_target pos s2)] else []
  (s2, pre ++ wr ++ [SessionAction.blink_confirm])

/-- Position toggle performed on a press inside the channel-selection
loop (`main.c:224`): Left becomes Right, anything else becomes Left. -/
def toggle_position (pos : Nat) : Nat :=
  if pos = LED_Position_Left then LED_Position_Right else LED_Position_Left

/-- Channel selected by the do-while loop at `main.c:207`: the local
`position` starts at `LED_Position_Left` and is toggled once per press
observed during the selection window. -/
def session_channel (presses : Nat) : Nat :=
  match presses with
  | 0 => LED_Position_Left
  | Nat.succ n => toggle_position (session_channel n)

/-- The dispatch condition at `main.c:197`: once at least one press was
counted and the time since the last press exceeds
`SWITCH_COMMAND_EXECUTE_MS`, `execute_command` is set to the accumulated
`switch_count`; otherwise no command is dispatched. -/
def dispatch_command (count gap : Nat) : Option Nat :=
  if count > 0 ∧ gap > SWITCH_COMMAND_EXECUTE_MS then some count else none

/-! Long-hold shutdown path, from `main.c:178` and `system_shutdown`. -/

/-- Observable steps of the long-hold shutdown path: the three status
blinks issued at `main.c:189`--`main.c:191`, then the actions of
`system_shutdown` (`main.c:116`): timer, battery and LED subsystems
disabled, the input pin configured to interrupt on both edges for wakeup,
and the CPU put into power-down sleep. -/
inductive SysAction where
  | blink_status : LED_Status → SysAction
  | timer_off : SysAction
  | battery_off : SysAction
  | led_subsystem_off : SysAction
  | wake_pin_both_edges : SysAction
  | sleep_power_down : SysAction
deriving DecidableEq

/-- The full shutdown action sequence, in program order. -/
def shutdown_actions : List SysAction :=
  [SysAction.blink_status LED_Status.Ready,
   SysAction.blink_status LED_Status.Warning,
   SysAction.blink_status LED_Status.ErrorStatus,
   SysAction.timer_off,
   SysAction.battery_off,
   SysAction.led_subsystem_off,
   SysAction.wake_pin_both_edges,
   SysAction.sleep_power_down]

/-- Elapsed-millisecond values the busy-poll `while(PORTA.IN & SWITCH)`
loop observes as `systick - last_button_press` during a hold of
`hold_ms` milliseconds: every value from 0 up to `hold_ms`.  The poll
period is far below the 1 ms tick, so no tick value is skipped. -/
def hold_observations (hold_ms : Nat) : List Nat :=
  List.range (hold_ms + 1)

/-- Whether the hold loop's shutdown test `(systick - last_button_press) >
SWITCH_SYSTEM_OFF_TIME_MS` (`main.c:187`) fires at some point during a
hold of `hold_ms` milliseconds. -/
def hold_shutdown (hold_ms : Nat) : Bool :=
  (hold_observations hold_ms).any (fun e => e > SWITCH_SYSTEM_OFF_TIME_MS)

/-- Outcome of one press of the button: either the shutdown path runs (with
its action sequence), or the press is counted and the loop returns to
gesture counting with the new `switch_count`. -/
inductive PressOutcome where
  | shutdown : List SysAction → PressOutcome
  | counting : Nat → PressOutcome
deriving DecidableEq

/-- The press-handling block at `main.c:178`: on the press edge
`switch_count` is incremented and `last_button_press` is refreshed; while
the button stays held the shutdown test is polled, and if it fires the
three blinks and `system_shutdown` run; otherwise, on release, control
returns to gesture counting with the incremented count. -/
def button_press_handler (hold_ms count : Nat) : PressOutcome :=
  if hold_shutdown hold_ms then
    PressOutcome.shutdown shutdown_actions
  else
    PressOutcome.counting (count + 1)

/-! Persistence, from `eeprom_read_block` / `eeprom_write_block` usage in
`main.c` and the `LED_Data EEMEM ee_led1, ee_led2` layout. -/

/-- The two fixed EEPROM blocks `ee_led1` and `ee_led2`, each holding the
raw bytes of one `LED_Data` record. -/
structure EEPROM_State where
  ee_led1 : List Nat
  ee_led2 : List Nat
deriving DecidableEq

/-- Byte image of a `LED_Data` record in storage order: intensity, red,
green, blue (the struct layout of `LED_Data_t`). -/
def led_serialize (d : LED_Data) : List Nat :=
  [d.intensity, d.red, d.green, d.blue]

/-- Reconstruction of a `LED_Data` record from its 4 stored bytes, as
`eeprom_read_block` copies them back over the struct. -/
def led_deserialize (bytes : List Nat) : LED_Data :=
  match bytes with
  | [i, r, g, b] => ⟨i, r, g, b⟩
  | _ => ⟨0, 0, 0, 0⟩

/-- The session-end EEPROM write at `main.c:282`: when the build flag
`ENABLE_EEPROM_WRITE` is set, the record of the selected channel is
written to its block; position Left writes `ee_led1`, otherwise
`ee_led2`. -/
def eeprom_save (enabled : Bool) (pos : Nat) (d : LED_Data) (st : EEPROM_State) : EEPROM_State :=
  if enabled then
    if pos = LED_Position_Left then
      { st with ee_led1 := led_serialize d }
    else
      { st with ee_led2 := led_serialize d }
  else
    st

/-- The startup EEPROM read at `main.c:168`: the block of the requested
channel is copied back into a `LED_Data` record (healthy storage: reads
return the last written bytes). -/
def eeprom_load (pos : Nat) (st : EEPROM_State) : LED_Data :=
  if pos = LED_Position_Left then
    led_deserialize st.ee_led1
  else
    led_deserialize st.ee_led2

/-! Helper lemmas about the frame protocol. -/

/-- Each loop iteration of an emission contributes a fixed number of
bytes, so the loop contributes that number times the LED count. -/
theorem emit_loop_length (f : Nat → List Nat) (m : Nat) (hf : ∀ j, (f j).length = m) :
    ∀ k, (emit_loop f k).length = m * k
  | 0 => rfl
  | Nat.succ n => by
    show (emit_loop f n ++ f n).length = m * Nat.succ n
    rw [List.length_append, emit_loop_length f m hf n, hf n, Nat.mul_succ]

/-- Every branch of the `led_color` loop body emits exactly 4 bytes. -/
theorem led_color_channel_length (n position j : Nat) (color : LED_Data) :
    (led_color_channel n position j color).length = 4 := by
  unfold led_color_channel
  split_ifs <;> rfl

/-- Shape of any full emission `start marker ++ mid ++ end marker` whose
middle part has `4 * n` bytes: total length `4 + 4n + 4`, first four bytes
0x00, last four bytes 0xFF. -/
theorem frame_emission_shape (mid : List Nat) (n : Nat) (hm : mid.length = 4 * n) :
    (LED_SOF ++ mid ++ LED_EOF).length = 4 + 4 * n + 4 ∧
    (LED_SOF ++ mid ++ LED_EOF).take 4 = List.replicate 4 0x00 ∧
    (LED_SOF ++ mid ++ LED_EOF).drop (4 + 4 * n) = List.replicate 4 0xFF := by
  have hsof : LED_SOF.length = 4 := rfl
  have heof : LED_EOF.length = 4 := rfl
  refine ⟨?_, ?_, ?_⟩
  · simp only [List.length_append, hm]
    omega
  · rw [List.append_assoc, List.take_left' hsof]
    rfl
  · have h2 : (LED_SOF ++ mid).length = 4 + 4 * n := by
      rw [List.length_append, hm, hsof]
    rw [List.drop_left' h2]
    rfl

/-- Claim C4: every full frame emission for N channels, as produced by
`led_color`, `led_init` or `leds_off`, is exactly `4 + 4*N + 4` bytes on
the wire, beginning with four 0x00 bytes and ending with four 0xFF bytes,
for every N, every position mask and every input color. -/
theorem claim_C4 : ∀ (n position : Nat) (color : LED_Data),
    ((led_color_em n position color).length = 4 + 4 * n + 4 ∧
     (led_color_em n position color).take 4 = List.replicate 4 0x00 ∧
     (led_color_em n position color).drop (4 + 4 * n) = List.replicate 4 0xFF) ∧
    ((led_init_em n).length = 4 + 4 * n + 4 ∧
     (led_init_em n).take 4 = List.replicate 4 0x00 ∧
     (led_init_em n).drop (4 + 4 * n) = List.replicate 4 0xFF) ∧
    ((leds_off_em n).length = 4 + 4 * n + 4 ∧
     (leds_off_em n).take 4 = List.replicate 4 0x00 ∧
     (leds_off_em n).drop (4 + 4 * n) = List.replicate 4 0xFF) := by
  intro n position color
  refine ⟨?_, ?_, ?_⟩
  · exact frame_emission_shape _ n
      (emit_loop_length _ 4 (fun j => led_color_channel_length n position j color) n)
  · exact frame_emission_shape _ n
      (emit_loop_length (fun _ => led_frame LED_ENABLE_FLAG 0x00 0x00 0x00) 4 (fun _ => rfl) n)
  · exact frame_emission_shape _ n
      (emit_loop_length (fun _ => led_off) 4 (fun _ => rfl) n)

/-- Claim C5: the per-channel frame emitted for a `LED_Data` record is
exactly 4 bytes, in the order mode byte `0xE0 OR (intensity AND 0x3F)`,
then blue, then green, then red; and the off frame has mode byte 0xE0 and
all three color bytes 0x00. -/
theorem claim_C5 : ∀ (d : LED_Data),
    led_data d = [LED_ENABLE_FLAG ||| (d.intensity &&& 0x3F), d.blue, d.green, d.red] ∧
    (led_data d).length = 4 ∧
    led_off = [0xE0, 0x00, 0x00, 0x00] := by
  intro d
  refine ⟨?_, rfl, rfl⟩
  simp [led_data, led_frame, Nat.and_comm]

/-- Claim C10: with the configured `LED_NUMBER_OF_LEDS = 2`, every call to
`led_color` emits exactly one 4-byte frame per channel between the
markers, and a channel not selected by the position mask receives the off
frame `[0xE0, 0, 0, 0]`; in particular selecting only the left channel
actively sends the off frame to the right channel. -/
theorem claim_C10 : ∀ (position : Nat) (color : LED_Data),
    led_color_em LED_NUMBER_OF_LEDS position color =
      LED_SOF ++
        (if position &&& LED_Position_Left ≠ 0 ∨ position &&& LED_Position_Left_Alternating ≠ 0 then
          led_data color
        else
          led_off) ++
        ((if position &&& LED_Position_Right ≠ 0 ∨ position &&& LED_Position_Right_Alternating ≠ 0 then
          led_data color
        else
          led_off) ++ LED_EOF) ∧
    (led_data color).length = 4 ∧
    led_off.length = 4 ∧
    led_color_em LED_NUMBER_OF_LEDS LED_Position_Left color =
      LED_SOF ++ led_data color ++ ([0xE0, 0x00, 0x00, 0x00] ++ LED_EOF) := by
  intro position color
  refine ⟨?_, rfl, rfl, ?_⟩
  · show LED_SOF ++ (([] ++ led_color_channel 2 position 0 color) ++ led_color_channel 2 position 1 color) ++ LED_EOF = _
    simp only [List.nil_append, List.append_assoc]
    unfold led_color_channel
    norm_num
  · show LED_SOF ++ (([] ++ led_color_channel 2 LED_Position_Left 0 color) ++ led_color_channel 2 LED_Position_Left 1 color) ++ LED_EOF = _
    simp only [List.nil_append, List.append_assoc]
    unfold led_color_channel
    norm_num [LED_Position_Left, LED_Position_Right, LED_Position_Left_Alternating,
      LED_Position_Right_Alternating, led_off, led_frame, LED_ENABLE_FLAG]

/-! Helper lemmas about the adjustment loops. -/

/-- Running the red-adjustment loop (command 1) on the left channel for
`k` iterations adds `k` to `red` modulo 256 and changes nothing else. -/
theorem adjust_loop_one : ∀ (k : Nat) (s : ChannelState), s.led1.red < 256 →
    adjust_loop 1 LED_Position_Left k s =
      { s with led1 := { s.led1 with red := (s.led1.red + k) % 256 } }
  | 0, ⟨⟨i, r, g, b⟩, l2⟩, h => by
    show ChannelState.mk (LED_Data.mk i r g b) l2 =
      ChannelState.mk (LED_Data.mk i ((r + 0) % 256) g b) l2
    rw [Nat.add_zero, Nat.mod_eq_of_lt h]
  | Nat.succ n, ⟨⟨i, r, g, b⟩, l2⟩, h => by
    have hlt : (r + 1) % 256 < 256 := Nat.mod_lt _ (by omega)
    have ih := adjust_loop_one n (ChannelState.mk (LED_Data.mk i ((r + 1) % 256) g b) l2) hlt
    show adjust_loop 1 LED_Position_Left n (ChannelState.mk (LED_Data.mk i ((r + 1) % 256) g b) l2) = _
    rw [ih]
    show ChannelState.mk (LED_Data.mk i (((r + 1) % 256 + n) % 256) g b) l2 =
      ChannelState.mk (LED_Data.mk i ((r + Nat.succ n) % 256) g b) l2
    have harith : ((r + 1) % 256 + n) % 256 = (r + Nat.succ n) % 256 := by omega
    rw [harith]

/-- Running the green-adjustment loop (command 2) on the left channel for
`k` iterations adds `k` to `green` modulo 256 and changes nothing else. -/
theorem adjust_loop_two : ∀ (k : Nat) (s : ChannelState), s.led1.green < 256 →
    adjust_loop 2 LED_Position_Left k s =
      { s with led1 := { s.led1 with green := (s.led1.green + k) % 256 } }
  | 0, ⟨⟨i, r, g, b⟩, l2⟩, h => by
    show ChannelState.mk (LED_Data.mk i r g b) l2 =
      ChannelState.mk (LED_Data.mk i r ((g + 0) % 256) b) l2
    rw [Nat.add_zero, Nat.mod_eq_of_lt h]
  | Nat.succ n, ⟨⟨i, r, g, b⟩, l2⟩, h => by
    have hlt : (g + 1) % 256 < 256 := Nat.mod_lt _ (by omega)
    have ih := adjust_loop_two n (ChannelState.mk (LED_Data.mk i r ((g + 1) % 256) b) l2) hlt
    show adjust_loop 2 LED_Position_Left n (ChannelState.mk (LED_Data.mk i r ((g + 1) % 256) b) l2) = _
    rw [ih]
    show ChannelState.mk (LED_Data.mk i r (((g + 1) % 256 + n) % 256) b) l2 =
      ChannelState.mk (LED_Data.mk i r ((g + Nat.succ n) % 256) b) l2
    have harith : ((g + 1) % 256 + n) % 256 = (g + Nat.succ n) % 256 := by omega
    rw [harith]

/-- Running the blue-adjustment loop (command 3) on the left channel for
`k` iterations adds `k` to `blue` modulo 256 and changes nothing else. -/
theorem adjust_loop_three : ∀ (k : Nat) (s : ChannelState), s.led1.blue < 256 →
    adjust_loop 3 LED_Position_Left k s =
      { s with led1 := { s.led1 with blue := (s.led1.blue + k) % 256 } }
  | 0, ⟨⟨i, r, g, b⟩, l2⟩, h => by
    show ChannelState.mk (LED_Data.mk i r g b) l2 =
      ChannelState.mk (LED_Data.mk i r g ((b + 0) % 256)) l2
    rw [Nat.add_zero, Nat.mod_eq_of_lt h]
  | Nat.succ n, ⟨⟨i, r, g, b⟩, l2⟩, h => by
    have hlt : (b + 1) % 256 < 256 := Nat.mod_lt _ (by omega)
    have ih := adjust_loop_three n (ChannelState.mk (LED_Data.mk i r g ((b + 1) % 256)) l2) hlt
    show adjust_loop 3 LED_Position_Left n (ChannelState.mk (LED_Data.mk i r g ((b + 1) % 256)) l2) = _
    rw [ih]
    show ChannelState.mk (LED_Data.mk i r g (((b + 1) % 256 + n) % 256)) l2 =
      ChannelState.mk (LED_Data.mk i r g ((b + Nat.succ n) % 256)) l2
    have harith : ((b + 1) % 256 + n) % 256 = (b + Nat.succ n) % 256 := by omega
    rw [harith]

/-- Claim C1: for each click count c in {1,2,3,4} the adjustment-loop body
mutates exactly the attribute red (c=1), green (c=2), blue (c=3) or
intensity (c=4) of the target channel's record, incrementing it by one
step, and leaves every other attribute of both channels untouched: the
record-update equalities below change a single field.  The final conjunct
shows the session's channel selection only ever targets the left or the
right channel. -/
theorem claim_C1 : ∀ (s : ChannelState),
    (adjust_step_state 1 LED_Position_Left s =
      { s with led1 := { s.led1 with red := (s.led1.red + 1) % 256 } }) ∧
    (adjust_step_state 2 LED_Position_Left s =
      { s with led1 := { s.led1 with green := (s.led1.green + 1) % 256 } }) ∧
    (adjust_step_state 3 LED_Position_Left s =
      { s with led1 := { s.led1 with blue := (s.led1.blue + 1) % 256 } }) ∧
    (adjust_step_state 4 LED_Position_Left s =
      { s with led1 := { s.led1 with intensity :=
        if (s.led1.intensity + 1) % 256 > LED_MAX_INTENSITY then LED_MIN_INTENSITY
        else (s.led1.intensity + 1) % 256 } }) ∧
    (adjust_step_state 1 LED_Position_Right s =
      { s with led2 := { s.led2 with red := (s.led2.red + 1) % 256 } }) ∧
    (adjust_step_state 2 LED_Position_Right s =
      { s with led2 := { s.led2 with green := (s.led2.green + 1) % 256 } }) ∧
    (adjust_step_state 3 LED_Position_Right s =
      { s with led2 := { s.led2 with blue := (s.led2.blue + 1) % 256 } }) ∧
    (adjust_step_state 4 LED_Position_Right s =
      { s with led2 := { s.led2 with intensity :=
        if (s.led2.intensity + 1) % 256 > LED_MAX_INTENSITY then LED_MIN_INTENSITY
        else (s.led2.intensity + 1) % 256 } }) ∧
    (∀ presses, session_channel presses = LED_Position_Left ∨
      session_channel presses = LED_Position_Right) := by
  intro s
  refine ⟨rfl, rfl, rfl, rfl, rfl, rfl, rfl, rfl, ?_⟩
  intro presses
  induction presses with
  | zero => exact Or.inl rfl
  | succ n ih =>
    rcases ih with h | h <;>
      simp [session_channel, toggle_position, h, LED_Position_Left, LED_Position_Right]

/-- Claim C3: starting from an intensity in the configured range
`[LED_MIN_INTENSITY, LED_MAX_INTENSITY] = [1, 15]`, one iteration of the
intensity-adjustment loop (command 4) leaves the intensity in `[1, 15]`,
and incrementing from 15 yields exactly 1. -/
theorem claim_C3 (d : LED_Data) (h1 : LED_MIN_INTENSITY ≤ d.intensity)
    (h2 : d.intensity ≤ LED_MAX_INTENSITY) :
    (LED_MIN_INTENSITY ≤ (adjust_step 4 d).intensity ∧
      (adjust_step 4 d).intensity ≤ LED_MAX_INTENSITY) ∧
    (d.intensity = LED_MAX_INTENSITY → (adjust_step 4 d).intensity = LED_MIN_INTENSITY) := by
  simp only [LED_MIN_INTENSITY, LED_MAX_INTENSITY] at h1 h2
  have hlt : (d.intensity + 1) % 256 = d.intensity + 1 := Nat.mod_eq_of_lt (by omega)
  simp only [adjust_step, hlt, LED_MIN_INTENSITY, LED_MAX_INTENSITY]
  split_ifs <;> omega

/-- Witness for claim C3 at the upper bound 15: the next value is 1. -/
theorem claim_C3_witness :
    (LED_MIN_INTENSITY ≤ (LED_Data.mk 15 0 255 255).intensity ∧
      (LED_Data.mk 15 0 255 255).intensity ≤ LED_MAX_INTENSITY) ∧
    ((LED_MIN_INTENSITY ≤ (adjust_step 4 (LED_Data.mk 15 0 255 255)).intensity ∧
      (adjust_step 4 (LED_Data.mk 15 0 255 255)).intensity ≤ LED_MAX_INTENSITY) ∧
     ((LED_Data.mk 15 0 255 255).intensity = LED_MAX_INTENSITY →
      (adjust_step 4 (LED_Data.mk 15 0 255 255)).intensity = LED_MIN_INTENSITY)) :=
  ⟨⟨by decide, by decide⟩, claim_C3 (LED_Data.mk 15 0 255 255) (by decide) (by decide)⟩

/-- Claim C6: for every starting value of a color channel below 256, `k`
iterations of the corresponding adjustment loop (commands 1, 2, 3) leave
that channel at the start value plus `k` modulo 256, with no clamping and
no change to any other attribute; in particular 255 + 1 wraps to 0. -/
theorem claim_C6 (s : ChannelState) (k : Nat)
    (hr : s.led1.red < 256) (hg : s.led1.green < 256) (hb : s.led1.blue < 256) :
    (adjust_loop 1 LED_Position_Left k s =
      { s with led1 := { s.led1 with red := (s.led1.red + k) % 256 } }) ∧
    (adjust_loop 2 LED_Position_Left k s =
      { s with led1 := { s.led1 with green := (s.led1.green + k) % 256 } }) ∧
    (adjust_loop 3 LED_Position_Left k s =
      { s with led1 := { s.led1 with blue := (s.led1.blue + k) % 256 } }) ∧
    (adjust_step 1 (LED_Data.mk 1 255 0 0)).red = 0 ∧
    (adjust_step 2 (LED_Data.mk 1 0 255 0)).green = 0 ∧
    (adjust_step 3 (LED_Data.mk 1 0 0 255)).blue = 0 :=
  ⟨adjust_loop_one k s hr, adjust_loop_two k s hg, adjust_loop_three k s hb,
    by decide, by decide, by decide⟩

/-- Witness for claim C6: two iterations of the red loop starting at 255
wrap to 1, on a concrete state. -/
theorem claim_C6_witness :
    ((LED_Data.mk 3 255 0 255).red < 256 ∧ (LED_Data.mk 3 255 0 255).green < 256 ∧
      (LED_Data.mk 3 255 0 255).blue < 256) ∧
    ((adjust_loop 1 LED_Position_Left 2 (ChannelState.mk (LED_Data.mk 3 255 0 255) (LED_Data.mk 3 255 0 255)) =
      { ChannelState.mk (LED_Data.mk 3 255 0 255) (LED_Data.mk 3 255 0 255) with
        led1 := { LED_Data.mk 3 255 0 255 with red := (255 + 2) % 256 } }) ∧
     (adjust_loop 2 LED_Position_Left 2 (ChannelState.mk (LED_Data.mk 3 255 0 255) (LED_Data.mk 3 255 0 255)) =
      { ChannelState.mk (LED_Data.mk 3 255 0 255) (LED_Data.mk 3 255 0 255) with
        led1 := { LED_Data.mk 3 255 0 255 with green := (0 + 2) % 256 } }) ∧
     (adjust_loop 3 LED_Position_Left 2 (ChannelState.mk (LED_Data.mk 3 255 0 255) (LED_Data.mk 3 255 0 255)) =
      { ChannelState.mk (LED_Data.mk 3 255 0 255) (LED_Data.mk 3 255 0 255) with
        led1 := { LED_Data.mk 3 255 0 255 with blue := (255 + 2) % 256 } }) ∧
     (adjust_step 1 (LED_Data.mk 1 255 0 0)).red = 0 ∧
     (adjust_step 2 (LED_Data.mk 1 0 255 0)).green = 0 ∧
     (adjust_step 3 (LED_Data.mk 1 0 0 255)).blue = 0) :=
  ⟨⟨by decide, by decide, by decide⟩,
    claim_C6 (ChannelState.mk (LED_Data.mk 3 255 0 255) (LED_Data.mk 3 255 0 255)) 2
      (by decide) (by decide) (by decide)⟩

/-! Helper lemmas about unmapped commands and the hold loop. -/

/-- A command outside {1,2,3,4} has no adjustment case: the loop body
mutates nothing. -/
theorem adjust_step_unmapped (cmd : Nat) (d : LED_Data) (h : command_mapped cmd = false) :
    adjust_step cmd d = d := by
  match cmd with
  | 0 => rfl
  | 1 => simp [command_mapped] at h
  | 2 => simp [command_mapped] at h
  | 3 => simp [command_mapped] at h
  | 4 => simp [command_mapped] at h
  | (n + 5) => rfl

/-- An unmapped command leaves the two-channel state unchanged in one
step. -/
theorem adjust_step_state_unmapped (cmd pos : Nat) (s : ChannelState)
    (h : command_mapped cmd = false) : adjust_step_state cmd pos s = s := by
  unfold adjust_step_state
  rw [adjust_step_unmapped cmd s.led1 h, adjust_step_unmapped cmd s.led2 h]
  split <;> rfl

/-- An unmapped command leaves the two-channel state unchanged for any
number of iterations. -/
theorem adjust_loop_unmapped (cmd pos : Nat) (h : command_mapped cmd = false) :
    ∀ (k : Nat) (s : ChannelState), adjust_loop cmd pos k s = s
  | 0, _ => rfl
  | Nat.succ n, s => by
    show adjust_loop cmd pos n (adjust_step_state cmd pos s) = s
    rw [adjust_step_state_unmapped cmd pos s h, adjust_loop_unmapped cmd pos h n s]

/-- The hold loop's shutdown test fires during a hold of `hold_ms`
milliseconds exactly when the hold is strictly longer than the configured
shutdown time. -/
theorem hold_shutdown_iff (hold_ms : Nat) :
    hold_shutdown hold_ms = true ↔ hold_ms > SWITCH_SYSTEM_OFF_TIME_MS := by
  simp only [hold_shutdown, hold_observations, List.any_eq_true, List.mem_range,
    decide_eq_true_eq, SWITCH_SYSTEM_OFF_TIME_MS, gt_iff_lt]
  constructor
  · rintro ⟨e, he, hgt⟩
    omega
  · intro hh
    exact ⟨3001, by omega, by omega⟩

/-! LED records persisted in EEPROM at build time, from the `EEMEM`
initializers in `main.c`. -/

/-- Factory content of `ee_led1` in `main.c`: intensity 3, red 0,
green 255, blue 255. -/
def ee_led1_default : LED_Data := ⟨0x03, 0x00, 0xFF, 0xFF⟩

/-- Factory content of `ee_led2` in `main.c`: intensity 3, red 255,
green 0, blue 255. -/
def ee_led2_default : LED_Data := ⟨0x03, 0xFF, 0x00, 0xFF⟩

/-- Channel state right after the startup EEPROM read with factory
content. -/
def startup_state : ChannelState := ⟨ee_led1_default, ee_led2_default⟩

/-- Counterexample to claim C2: dispatching the unmapped click count 5
does run the error blink and mutates nothing, but the session-commit
actions are still performed, contrary to the claim: the EEPROM write of
the selected channel's record and the Ready confirmation blink both
appear in the action trace, because the `switch` default branch falls
through to the unconditional commit code at `main.c:282`. -/
theorem claim_C2_counterexample :
    (execute_command_session 5 0 LED_Position_Left startup_state true).2 =
      [SessionAction.blink_error,
       SessionAction.eeprom_write LED_Position_Left ee_led1_default,
       SessionAction.blink_confirm] ∧
    (execute_command_session 5 0 LED_Position_Left startup_state true).1 = startup_state := by
  constructor <;> rfl

/-- Claim C2 as amended: for every click count outside {1,2,3,4} the
session runs the error blink and mutates no `ChannelColor` attribute (no
adjustment loop runs), but the commit actions still execute: the EEPROM
write (when enabled) stores the selected channel's unchanged record and
the confirmation blink is emitted, after which the loop returns to
idle. -/
theorem claim_C2_amended (cmd k pos : Nat) (s : ChannelState)
    (h : command_mapped cmd = false) :
    (execute_command_session cmd k pos s true).1 = s ∧
    (execute_command_session cmd k pos s true).2 =
      [SessionAction.blink_error,
       SessionAction.eeprom_write pos (session_target pos s),
       SessionAction.blink_confirm] := by
  refine ⟨?_, ?_⟩ <;>
    simp [execute_command_session, adjust_loop_unmapped cmd pos h k s, h]

/-- Witness for the amended claim C2 at click count 5 on the right
channel. -/
theorem claim_C2_witness :
    command_mapped 5 = false ∧
    ((execute_command_session 5 3 LED_Position_Right startup_state true).1 = startup_state ∧
     (execute_command_session 5 3 LED_Position_Right startup_state true).2 =
       [SessionAction.blink_error,
        SessionAction.eeprom_write LED_Position_Right (session_target LED_Position_Right startup_state),
        SessionAction.blink_confirm]) :=
  ⟨by decide, claim_C2_amended 5 3 LED_Position_Right startup_state (by decide)⟩

/-- Counterexample to claim C7: a press held for exactly 3000 ms reaches
the configured long-hold duration (3000 ms), yet the system does not shut
down: the test at `main.c:187` is strict, so the press is counted and the
loop returns to gesture counting. -/
theorem claim_C7_counterexample :
    (3000:Nat) ≥ SWITCH_SYSTEM_OFF_TIME_MS ∧
    button_press_handler 3000 0 = PressOutcome.counting 1 ∧
    button_press_handler 3000 0 ≠ PressOutcome.shutdown shutdown_actions := by
  have hfalse : hold_shutdown 3000 = false := by
    rcases Bool.eq_false_or_eq_true (hold_shutdown 3000) with hb | hb
    · have hgt := (hold_shutdown_iff 3000).mp hb
      simp only [SWITCH_SYSTEM_OFF_TIME_MS] at hgt
      omega
    · exact hb
  refine ⟨by simp [SWITCH_SYSTEM_OFF_TIME_MS], ?_, ?_⟩ <;>
    simp [button_press_handler, hfalse]

/-- Claim C7 as amended: holding the button strictly longer than the
configured 3000 ms triggers exactly the shutdown sequence: Ready, Warning
and Error blinks in that order, then timer, battery and LED subsystems
disabled, the input pin configured to wake on either edge, and power-down
sleep; releasing at or before 3000 ms instead increments the click
counter by one and returns to idle gesture counting. -/
theorem claim_C7_amended (hold_ms count : Nat) :
    (hold_ms > SWITCH_SYSTEM_OFF_TIME_MS →
      button_press_handler hold_ms count = PressOutcome.shutdown
        [SysAction.blink_status LED_Status.Ready,
         SysAction.blink_status LED_Status.Warning,
         SysAction.blink_status LED_Status.ErrorStatus,
         SysAction.timer_off,
         SysAction.battery_off,
         SysAction.led_subsystem_off,
         SysAction.wake_pin_both_edges,
         SysAction.sleep_power_down]) ∧
    (hold_ms ≤ SWITCH_SYSTEM_OFF_TIME_MS →
      button_press_handler hold_ms count = PressOutcome.counting (count + 1)) := by
  constructor
  · intro hgt
    have ht : hold_shutdown hold_ms = true := (hold_shutdown_iff hold_ms).mpr hgt
    simp [button_press_handler, ht, shutdown_actions]
  · intro hle
    have hf : hold_shutdown hold_ms = false := by
      rcases Bool.eq_false_or_eq_true (hold_shutdown hold_ms) with hb | hb
      · have hgt := (hold_shutdown_iff hold_ms).mp hb
        exact absurd hle (by omega)
      · exact hb
    simp [button_press_handler, hf]

/-- Witness for the amended claim C7: a 3001 ms hold shuts down, a 3000 ms
hold counts the press. -/
theorem claim_C7_witness :
    ((3001:Nat) > SWITCH_SYSTEM_OFF_TIME_MS ∧
      button_press_handler 3001 0 = PressOutcome.shutdown
        [SysAction.blink_status LED_Status.Ready,
         SysAction.blink_status LED_Status.Warning,
         SysAction.blink_status LED_Status.ErrorStatus,
         SysAction.timer_off,
         SysAction.battery_off,
         SysAction.led_subsystem_off,
         SysAction.wake_pin_both_edges,
         SysAction.sleep_power_down]) ∧
    ((3000:Nat) ≤ SWITCH_SYSTEM_OFF_TIME_MS ∧
      button_press_handler 3000 5 = PressOutcome.counting (5 + 1)) :=
  ⟨⟨by decide, (claim_C7_amended 3001 0).1 (by decide)⟩,
   ⟨by decide, (claim_C7_amended 3000 5).2 (by decide)⟩⟩

/-- Counterexample to claim C8: two presses followed by a silent gap
longer than the command window do dispatch command 2, but the adjustment
does not run on a channel remembered from before the session: the
selection loop's `position` variable is freshly initialized to
`LED_Position_Left` (`main.c:205`), so with no press during the selection
phase the target is the left channel, which differs from a previously
active right channel. -/
theorem claim_C8_counterexample :
    dispatch_command 2 3001 = some 2 ∧
    session_channel 0 = LED_Position_Left ∧
    LED_Position_Left ≠ LED_Position_Right := by
  decide

/-- Claim C8 as amended: if exactly 2 presses occurred and no press
follows for longer than the command window, command 2 is dispatched and
the green adjustment loop runs on the channel selected during the
session's own selection phase; that phase starts at the left channel, so
with no further press the loop adds one to green modulo 256 per iteration
on the left record and touches nothing else. -/
theorem claim_C8_amended (gap k : Nat) (s : ChannelState)
    (hgap : gap > SWITCH_COMMAND_EXECUTE_MS) (hg : s.led1.green < 256) :
    dispatch_command 2 gap = some 2 ∧
    session_channel 0 = LED_Position_Left ∧
    adjust_loop 2 (session_channel 0) k s =
      { s with led1 := { s.led1 with green := (s.led1.green + k) % 256 } } := by
  refine ⟨?_, rfl, ?_⟩
  · simp [dispatch_command, hgap]
  · exact adjust_loop_two k s hg

/-- Witness for the amended claim C8 with a 3001 ms gap and four loop
iterations on the startup state. -/
theorem claim_C8_witness :
    ((3001:Nat) > SWITCH_COMMAND_EXECUTE_MS ∧ startup_state.led1.green < 256) ∧
    (dispatch_command 2 3001 = some 2 ∧
     session_channel 0 = LED_Position_Left ∧
     adjust_loop 2 (session_channel 0) 4 startup_state =
       { startup_state with led1 :=
         { startup_state.led1 with green := (startup_state.led1.green + 4) % 256 } }) :=
  ⟨⟨by decide, by decide⟩, claim_C8_amended 3001 4 startup_state (by decide) (by decide)⟩

/-- Claim C9: with persistence enabled and healthy storage, saving a
channel's record and loading it back returns a bit-identical record (the
4 stored bytes intensity, red, green, blue are read back unchanged). -/
theorem claim_C9 (enabled : Bool) (pos : Nat) (d : LED_Data) (st : EEPROM_State)
    (h : enabled = true) :
    eeprom_load pos (eeprom_save enabled pos d st) = d := by
  subst h
  by_cases hp : pos = LED_Position_Left <;>
    simp [eeprom_save, eeprom_load, hp, led_serialize, led_deserialize]

/-- Witness for claim C9 on the right channel with a concrete record. -/
theorem claim_C9_witness :
    true = true ∧
    eeprom_load LED_Position_Right
      (eeprom_save true LED_Position_Right (LED_Data.mk 7 1 2 3) (EEPROM_State.mk [] [])) =
      LED_Data.mk 7 1 2 3 :=
  ⟨rfl, claim_C9 true LED_Position_Right (LED_Data.mk 7 1 2 3) (EEPROM_State.mk [] []) rfl⟩

end RCC
